import Mathlib

/-!
Shallow embedding of `tensorflowjs/converters/converter.py`: the
format-resolution, flag-validation and conversion-routing subsystem.

Python strings are Lean `String`; Python `None`-able strings are
`Option String`; Python truthiness of such a value is `truthy` below
(`None` and the empty string are falsy).  Functions that `raise
ValueError` return `Except String` carrying the message.  Filesystem
state queried via `os.path` is abstracted as a record of predicates on
paths (`Fs`); calls to external collaborator modules are recorded as
explicit action values rather than performed.
-/

namespace Converter

/-- Python truthiness of an optional string flag: `None` and `""` are falsy. -/
def truthy : Option String → Bool
  | none => false
  | some s => !(s == "")

/-- Rendering of a possibly-absent string by Python `'%s' %`: `None` prints as `"None"`. -/
def pyOptStr : Option String → String
  | none => "None"
  | some s => s

/-- The local truth value `input_format_is_keras` computed by
`_standardize_input_output_formats`. -/
def input_format_is_keras (input_format : String) : Bool :=
  input_format == "keras" || input_format == "keras_saved_model"

/-- The local truth value `input_format_is_tf` computed by
`_standardize_input_output_formats`. -/
def input_format_is_tf (input_format : String) : Bool :=
  input_format == "tf_frozen_model" || input_format == "tf_hub" ||
  input_format == "tf_saved_model" || input_format == "tf_session_bundle"

/-- Embedding of `_standardize_input_output_formats(input_format, output_format)`.
Mirrors the source line by line: the deprecated input alias check first,
then the two family predicates, then output inference (when the output is
absent) or the deprecated output alias check (when it is present). -/
def standardize_input_output_formats (input_format : String)
    (output_format : Option String) : Except String (String × Option String) :=
  if input_format = "tensorflowjs" then
    .error ("--input_format=tensorflowjs has been deprecated. " ++
      "Use --input_format=tfjs_layers_model instead.")
  else
    match output_format with
    | none =>
      if input_format_is_keras input_format then
        .ok (input_format, some "tfjs_layers_model")
      else if input_format_is_tf input_format then
        .ok (input_format, some "tfjs_graph_model")
      else if input_format = "tfjs_layers_model" then
        .ok (input_format, some "keras")
      else .ok (input_format, none)
    | some o =>
      if o = "tensorflowjs" then
        if input_format_is_keras input_format then
          .error ("--output_format=tensorflowjs has been deprecated under " ++
            "--input_format=" ++ input_format ++
            ". Use --output_format=tfjs_layers_model instead.")
        else if input_format_is_tf input_format then
          .error ("--output_format=tensorflowjs has been deprecated under " ++
            "--input_format=" ++ input_format ++
            ". Use --output_format=tfjs_graph_model instead.")
        else .ok (input_format, some o)
      else .ok (input_format, some o)

/-- Abstraction of the filesystem state the converter queries through
`os.path` and of the content properties it inspects: whether a path
exists, is a directory, is a regular file, whether an HDF5 file at a path
has the `layer_names` root attribute, and whether the file at a path
holds syntactically valid JSON. -/
structure Fs where
  path_exists : String → Bool
  isdir : String → Bool
  isfile : String → Bool
  hasLayerNames : String → Bool
  validJson : String → Bool

/-- Effect of `model.save(p)`: afterwards `p` exists and is a regular file. -/
def Fs.addFile (fs : Fs) (p : String) : Fs where
  path_exists := fun q => q == p || fs.path_exists q
  isdir := fun q => !(q == p) && fs.isdir q
  isfile := fun q => q == p || fs.isfile q
  hasLayerNames := fs.hasLayerNames
  validJson := fs.validJson

/-- Effect of `os.remove(p)`: afterwards `p` no longer exists. -/
def Fs.removeFile (fs : Fs) (p : String) : Fs where
  path_exists := fun q => !(q == p) && fs.path_exists q
  isdir := fs.isdir
  isfile := fun q => !(q == p) && fs.isfile q
  hasLayerNames := fs.hasLayerNames
  validJson := fs.validJson

/-- Calls `dispatch_keras_h5_to_tensorflowjs_conversion` makes to external
collaborators (`keras_h5_conversion` and `os.makedirs`), recorded as
values instead of performed. -/
inductive H5Action where
  | h5_weights_to_tfjs_format (split : Bool)
  | h5_merged_saved_model_to_tfjs_format (split : Bool)
  | makedirs (dir : String)
  | write_artifacts (dir : String) (quantization_dtype : Option String)
deriving DecidableEq

/-- Embedding of `dispatch_keras_h5_to_tensorflowjs_conversion(h5_path,
output_dir, quantization_dtype, split_weights_by_layer)`.  Returns the
`model_json` presence (`none` for a weights-only HDF5, `some ()` for a
combined topology+weights HDF5 — the concrete JSON and weight groups are
produced by the out-of-scope collaborator) together with the list of
collaborator calls made, or the `ValueError` message. -/
def dispatch_keras_h5_to_tensorflowjs_conversion (fs : Fs) (h5_path : String)
    (output_dir : Option String) (quantization_dtype : Option String)
    (split_weights_by_layer : Bool) :
    Except String (Option Unit × List H5Action) :=
  if !(fs.path_exists h5_path) then
    .error ("Nonexistent path to HDF5 file: " ++ h5_path)
  else if fs.isdir h5_path then
    .error ("Expected path to point to an HDF5 file, but it points to a " ++
      "directory: " ++ h5_path)
  else
    let conv : Option Unit × List H5Action :=
      if fs.hasLayerNames h5_path then
        (none, [H5Action.h5_weights_to_tfjs_format split_weights_by_layer])
      else
        (some (), [H5Action.h5_merged_saved_model_to_tfjs_format split_weights_by_layer])
    if truthy output_dir then
      let d := pyOptStr output_dir
      if fs.isfile d then
        .error ("Output path \"" ++ d ++ "\" already exists as a file")
      else if fs.isdir d then
        .ok (conv.1, conv.2 ++ [H5Action.write_artifacts d quantization_dtype])
      else
        .ok (conv.1, conv.2 ++ [H5Action.makedirs d,
          H5Action.write_artifacts d quantization_dtype])
    else
      .ok conv

/-- Embedding of `dispatch_keras_saved_model_to_tensorflowjs_conversion`.
The call `tf.contrib.saved_model.load_keras_model` and the temporary-file
name drawn from `tempfile.mktemp` are abstracted: `temp_h5_path` is the
name `mktemp` returned.  `model.save(temp_h5_path)` makes the temporary
file exist; the source then asserts it is a file, recurses into the
HDF5-to-bundle conversion, and — only after that call returns normally —
removes the temporary file.  An exception from the recursive call
propagates with the filesystem as the recursive call left it.  Returns
the outcome paired with the final filesystem state. -/
def dispatch_keras_saved_model_to_tensorflowjs_conversion (fs : Fs)
    (temp_h5_path : String) (output_dir : Option String)
    (quantization_dtype : Option String) (split_weights_by_layer : Bool) :
    Except String (List H5Action) × Fs :=
  if !((fs.addFile temp_h5_path).isfile temp_h5_path) then
    (.error "AssertionError", fs.addFile temp_h5_path)
  else
    match dispatch_keras_h5_to_tensorflowjs_conversion (fs.addFile temp_h5_path)
        temp_h5_path output_dir quantization_dtype split_weights_by_layer with
    | .error e => (.error e, fs.addFile temp_h5_path)
    | .ok r => (.ok r.2, (fs.addFile temp_h5_path).removeFile temp_h5_path)

/-- Embedding of `dispatch_tensorflowjs_to_keras_h5_conversion(config_json_path,
h5_path)`.  A returned `.ok` value records that
`keras_tfjs_loader.load_keras_model(config_json_path)` was invoked and the
resulting model saved to `h5_path` (both delegated, out of scope). -/
def dispatch_tensorflowjs_to_keras_h5_conversion (fs : Fs)
    (config_json_path h5_path : String) : Except String (String × String) :=
  if fs.isdir config_json_path then
    .error ("For input_type=tensorflowjs & output_format=keras, " ++
      "the input path should be a model.json " ++
      "file, but received a directory.")
  else if fs.isdir h5_path then
    .error ("For input_type=tensorflowjs & output_format=keras, " ++
      "the output path should be the path to an HDF5 file, " ++
      "but received an existing directory (" ++ h5_path ++ ").")
  else if !(fs.validJson config_json_path) then
    .error ("For input_type=tensorflowjs & output_format=keras, " ++
      "the input path is expected to contain valid JSON content, " ++
      "but cannot read valid JSON content from " ++ config_json_path ++ ".")
  else
    .ok (config_json_path, h5_path)

/-- Embedding of the `--output_node_names` applicability check in `main`.
The source tests the standardized `input_format` and interpolates
`FLAGS.input_format` into the message; the two are always equal because
standardization never rewrites the input format, so a single argument
stands for both. -/
def validate_output_node_names (output_node_names : Option String)
    (input_format : String) : Except String Unit :=
  if truthy output_node_names ∧
      input_format ≠ "tf_saved_model" ∧ input_format ≠ "tf_session_bundle" ∧
      input_format ≠ "tf_frozen_model" then
    .error ("The --output_node_names flag is applicable only to input formats " ++
      "\"tf_saved_model\", \"tf_session_bundle\" and \"tf_frozen_model\", " ++
      "but the current input format is \"" ++ input_format ++ "\".")
  else .ok ()

/-- Embedding of the `--signature_name` applicability check in `main`. -/
def validate_signature_name (signature_name : Option String)
    (input_format : String) : Except String Unit :=
  if truthy signature_name ∧ input_format ≠ "tf_hub" then
    .error ("The --signature_name is applicable only to \"tf_hub\" input format, " ++
      "but the current input format is \"" ++ input_format ++ "\".")
  else .ok ()

/-- The external conversion routines `main` can delegate to, with the
arguments it forwards to them.  `convert_tf_hub_module_sig` and
`convert_tf_hub_module` are the two call shapes of the single Python
callee `tf_saved_model_conversion.convert_tf_hub_module` — with and
without the `signature` positional argument. -/
inductive ExtCall where
  | keras_h5_to_tfjs (input_path : String) (output_dir : Option String)
      (quantization_dtype : Option String) (split : Bool)
  | keras_saved_model_to_tfjs (input_path : String) (output_path : Option String)
      (quantization_dtype : Option String) (split : Bool)
  | convert_tf_saved_model (input_path : String) (output_node_names : Option String)
      (output_path : Option String) (saved_model_tags : String)
      (quantization_dtype : Option String) (skip strip : Bool)
  | convert_tf_session_bundle (input_path : String) (output_node_names : Option String)
      (output_path : Option String) (quantization_dtype : Option String)
      (skip strip : Bool)
  | convert_tf_frozen_model (input_path : String) (output_node_names : Option String)
      (output_path : Option String) (quantization_dtype : Option String)
      (skip strip : Bool)
  | convert_tf_hub_module_sig (input_path : String) (output_path : Option String)
      (signature_name : Option String) (skip strip : Bool)
  | convert_tf_hub_module (input_path : String) (output_path : Option String)
      (skip strip : Bool)
  | tfjs_to_keras_h5 (input_path : String) (output_path : Option String)
deriving DecidableEq

/-- Embedding of the routing `if`/`elif` chain at the end of `main` (the
part after format standardization and flag validation): selects the one
external conversion routine for the resolved
(`input_format`, `output_format`) pair, or raises the unsupported-pair
`ValueError` naming both formats. -/
def route (input_format : String) (output_format : Option String)
    (input_path : String) (output_path : Option String)
    (output_node_names signature_name : Option String)
    (saved_model_tags : String) (quantization_dtype : Option String)
    (split_weights_by_layer skip_op_check strip_debug_ops : Bool) :
    Except String ExtCall :=
  if input_format = "keras" ∧ output_format = some "tfjs_layers_model" then
    .ok (.keras_h5_to_tfjs input_path output_path quantization_dtype
      split_weights_by_layer)
  else if input_format = "keras_saved_model" ∧ output_format = some "tfjs_layers_model" then
    .ok (.keras_saved_model_to_tfjs input_path output_path quantization_dtype
      split_weights_by_layer)
  else if input_format = "tf_saved_model" ∧ output_format = some "tfjs_graph_model" then
    .ok (.convert_tf_saved_model input_path output_node_names output_path
      saved_model_tags quantization_dtype skip_op_check strip_debug_ops)
  else if input_format = "tf_session_bundle" ∧ output_format = some "tfjs_graph_model" then
    .ok (.convert_tf_session_bundle input_path output_node_names output_path
      quantization_dtype skip_op_check strip_debug_ops)
  else if input_format = "tf_frozen_model" ∧ output_format = some "tfjs_graph_model" then
    .ok (.convert_tf_frozen_model input_path output_node_names output_path
      quantization_dtype skip_op_check strip_debug_ops)
  else if input_format = "tf_hub" ∧ output_format = some "tfjs_graph_model" then
    if truthy signature_name then
      .ok (.convert_tf_hub_module_sig input_path output_path signature_name
        skip_op_check strip_debug_ops)
    else
      .ok (.convert_tf_hub_module input_path output_path skip_op_check
        strip_debug_ops)
  else if input_format = "tfjs_layers_model" ∧ output_format = some "keras" then
    .ok (.tfjs_to_keras_h5 input_path output_path)
  else
    .error ("Unsupported input_format - output_format pair: " ++
      input_format ++ " - " ++ pyOptStr output_format)

/-- The seven (input_format, output_format) pairs of the routing table. -/
def routeTable : List (String × Option String) :=
  [("keras", some "tfjs_layers_model"),
   ("keras_saved_model", some "tfjs_layers_model"),
   ("tf_saved_model", some "tfjs_graph_model"),
   ("tf_session_bundle", some "tfjs_graph_model"),
   ("tf_frozen_model", some "tfjs_graph_model"),
   ("tf_hub", some "tfjs_graph_model"),
   ("tfjs_layers_model", some "keras")]

end Converter

namespace Converter

/-- After `model.save(p)`, `p` is a regular file. -/
theorem Fs.addFile_isfile_self (fs : Fs) (p : String) :
    (fs.addFile p).isfile p = true := by
  simp [Fs.addFile]

/-- After `model.save(p)`, `p` exists. -/
theorem Fs.addFile_path_exists_self (fs : Fs) (p : String) :
    (fs.addFile p).path_exists p = true := by
  simp [Fs.addFile]

/-- After `os.remove(p)`, `p` no longer exists. -/
theorem Fs.removeFile_path_exists_self (fs : Fs) (p : String) :
    (fs.removeFile p).path_exists p = false := by
  simp [Fs.removeFile]

/-- C3: With `output_format` absent, the resolver infers the output as a pure
function of `input_format` alone: the Keras-family inputs infer
`tfjs_layers_model`, the graph-family inputs infer `tfjs_graph_model`,
`tfjs_layers_model` infers `keras`, and every other input format (other
than the deprecated alias `tensorflowjs`, which fails earlier) leaves the
output absent, propagated as `none`. -/
theorem C3_output_format_inference (input_format : String) :
    ((input_format = "keras" ∨ input_format = "keras_saved_model") →
      standardize_input_output_formats input_format none =
        .ok (input_format, some "tfjs_layers_model")) ∧
    ((input_format = "tf_saved_model" ∨ input_format = "tf_session_bundle" ∨
      input_format = "tf_frozen_model" ∨ input_format = "tf_hub") →
      standardize_input_output_formats input_format none =
        .ok (input_format, some "tfjs_graph_model")) ∧
    (input_format = "tfjs_layers_model" →
      standardize_input_output_formats input_format none =
        .ok (input_format, some "keras")) ∧
    (input_format ≠ "tensorflowjs" →
      input_format ∉ ["keras", "keras_saved_model", "tf_saved_model",
        "tf_session_bundle", "tf_frozen_model", "tf_hub", "tfjs_layers_model"] →
      standardize_input_output_formats input_format none =
        .ok (input_format, none)) := by
  refine ⟨fun h => ?_, fun h => ?_, fun h => ?_, fun h1 h2 => ?_⟩
  · rcases h with h | h <;> subst h <;> rfl
  · rcases h with h | h | h | h <;> subst h <;> rfl
  · subst h; rfl
  · simp only [List.mem_cons, List.not_mem_nil, or_false, not_or] at h2
    obtain ⟨n1, n2, n3, n4, n5, n6, n7⟩ := h2
    simp [standardize_input_output_formats, input_format_is_keras,
      input_format_is_tf, h1, n1, n2, n3, n4, n5, n6, n7]

/-- Witness for C3 at concrete inputs: `keras` infers the layers target and
an unknown format leaves the output absent. -/
theorem C3_witness :
    standardize_input_output_formats "keras" none =
      .ok ("keras", some "tfjs_layers_model") ∧
    standardize_input_output_formats "some_other_format" none =
      .ok ("some_other_format", none) := by
  constructor
  · exact (C3_output_format_inference "keras").1 (Or.inl rfl)
  · exact (C3_output_format_inference "some_other_format").2.2.2
      (by decide) (by decide)

/-- C4: For every value of `output_format`, including `none`, the resolver
fails on the deprecated input alias `tensorflowjs` before any inference,
with a message naming the replacement `tfjs_layers_model`. -/
theorem C4_deprecated_input_alias_always_fails (output_format : Option String) :
    standardize_input_output_formats "tensorflowjs" output_format =
      .error ("--input_format=tensorflowjs has been deprecated. " ++
        "Use --input_format=tfjs_layers_model instead.") ∧
    ∃ p s, ("--input_format=tensorflowjs has been deprecated. " ++
        "Use --input_format=tfjs_layers_model instead.") =
      p ++ ("tfjs_layers_model" ++ s) := by
  refine ⟨rfl,
    "--input_format=tensorflowjs has been deprecated. Use --input_format=",
    " instead.", ?_⟩
  rfl

/-- C5 counterexample: resolving input `tfjs_layers_model` with the
deprecated explicit output alias `tensorflowjs` does not fail at all — the
resolver falls through both family branches and returns the pair
unchanged — refuting the claim that every input format in the vocabulary
fails with a deprecation error in this situation. -/
theorem C5_counterexample :
    standardize_input_output_formats "tfjs_layers_model" (some "tensorflowjs") =
      .ok ("tfjs_layers_model", some "tensorflowjs") ∧
    ∀ e, standardize_input_output_formats "tfjs_layers_model"
      (some "tensorflowjs") ≠ .error e := by
  refine ⟨rfl, fun e he => ?_⟩
  rw [(rfl : standardize_input_output_formats "tfjs_layers_model"
    (some "tensorflowjs") =
      Except.ok ("tfjs_layers_model", some "tensorflowjs"))] at he
  exact Except.noConfusion he

/-- C5 amended: only the Keras-family and graph-family input formats fail
when `output_format` is explicitly the deprecated alias `tensorflowjs`;
Keras-family inputs get `tfjs_layers_model` suggested and graph-family
inputs get `tfjs_graph_model` suggested (in particular `tf_saved_model`),
while input `tfjs_layers_model` returns normally with the pair
unchanged. -/
theorem C5_amended_deprecated_output_alias (input_format : String) :
    ((input_format = "keras" ∨ input_format = "keras_saved_model") →
      standardize_input_output_formats input_format (some "tensorflowjs") =
        .error ("--output_format=tensorflowjs has been deprecated under " ++
          "--input_format=" ++ input_format ++
          ". Use --output_format=tfjs_layers_model instead.") ∧
      ∃ p s, ("--output_format=tensorflowjs has been deprecated under " ++
          "--input_format=" ++ input_format ++
          ". Use --output_format=tfjs_layers_model instead.") =
        p ++ ("tfjs_layers_model" ++ s)) ∧
    ((input_format = "tf_frozen_model" ∨ input_format = "tf_hub" ∨
      input_format = "tf_saved_model" ∨ input_format = "tf_session_bundle") →
      standardize_input_output_formats input_format (some "tensorflowjs") =
        .error ("--output_format=tensorflowjs has been deprecated under " ++
          "--input_format=" ++ input_format ++
          ". Use --output_format=tfjs_graph_model instead.") ∧
      ∃ p s, ("--output_format=tensorflowjs has been deprecated under " ++
          "--input_format=" ++ input_format ++
          ". Use --output_format=tfjs_graph_model instead.") =
        p ++ ("tfjs_graph_model" ++ s)) ∧
    (input_format = "tfjs_layers_model" →
      standardize_input_output_formats input_format (some "tensorflowjs") =
        .ok (input_format, some "tensorflowjs")) := by
  refine ⟨fun h => ⟨?_, ?_⟩, fun h => ⟨?_, ?_⟩, fun h => ?_⟩
  · rcases h with h | h <;> subst h <;> rfl
  · refine ⟨("--output_format=tensorflowjs has been deprecated under " ++
      "--input_format=" ++ input_format ++ ". Use --output_format="),
      " instead.", ?_⟩
    conv_rhs => rw [String.append_assoc]
    rfl
  · rcases h with h | h | h | h <;> subst h <;> rfl
  · refine ⟨("--output_format=tensorflowjs has been deprecated under " ++
      "--input_format=" ++ input_format ++ ". Use --output_format="),
      " instead.", ?_⟩
    conv_rhs => rw [String.append_assoc]
    rfl
  · subst h; rfl

/-- Witness for C5's amended claim: `tf_saved_model` with output
`tensorflowjs` fails mentioning `tfjs_graph_model`, and `keras` fails
mentioning `tfjs_layers_model`. -/
theorem C5_amended_witness :
    standardize_input_output_formats "tf_saved_model" (some "tensorflowjs") =
      .error ("--output_format=tensorflowjs has been deprecated under " ++
        "--input_format=" ++ "tf_saved_model" ++
        ". Use --output_format=tfjs_graph_model instead.") ∧
    standardize_input_output_formats "keras" (some "tensorflowjs") =
      .error ("--output_format=tensorflowjs has been deprecated under " ++
        "--input_format=" ++ "keras" ++
        ". Use --output_format=tfjs_layers_model instead.") := by
  constructor
  · exact ((C5_amended_deprecated_output_alias "tf_saved_model").2.1
      (Or.inr (Or.inr (Or.inl rfl)))).1
  · exact ((C5_amended_deprecated_output_alias "keras").1 (Or.inl rfl)).1

/-- C9: Whenever the resolver returns normally, the first component of the
returned pair is the `input_format` argument unchanged — resolution never
rewrites the input format. -/
theorem C9_resolution_preserves_input_format (input_format : String)
    (output_format : Option String) (r : String × Option String)
    (h : standardize_input_output_formats input_format output_format = .ok r) :
    r.1 = input_format := by
  unfold standardize_input_output_formats at h
  split at h
  · injection h
  · split at h <;> split_ifs at h <;>
      (injection h with h1; rw [← h1])

/-- Witness for C9 at a concrete input. -/
theorem C9_witness :
    (("keras" : String), some "tfjs_layers_model").1 = "keras" :=
  C9_resolution_preserves_input_format "keras" none
    ("keras", some "tfjs_layers_model") rfl

/-- C2: The routing `if`/`elif` chain of `main` is total and exhaustive over
the format vocabulary: every resolved pair outside the seven-entry routing
table raises the unsupported-pair error, whose message names both the
input and the output format, and every pair inside the table dispatches to
exactly one external conversion routine. -/
theorem C2_router_total_and_exhaustive (input_format : String)
    (output_format : Option String) (input_path : String)
    (output_path output_node_names signature_name : Option String)
    (saved_model_tags : String) (quantization_dtype : Option String)
    (split skip strip : Bool) :
    ((input_format, output_format) ∉ routeTable →
      route input_format output_format input_path output_path
        output_node_names signature_name saved_model_tags quantization_dtype
        split skip strip =
      .error ("Unsupported input_format - output_format pair: " ++
        input_format ++ " - " ++ pyOptStr output_format)) ∧
    ((input_format, output_format) ∈ routeTable →
      ∃ c, route input_format output_format input_path output_path
        output_node_names signature_name saved_model_tags quantization_dtype
        split skip strip = .ok c) := by
  constructor
  · intro hnot
    unfold route
    split_ifs with h1 h2 h3 h4 h5 h6 hs h7
    · obtain ⟨ha, hb⟩ := h1; subst ha; subst hb; exact absurd (by decide) hnot
    · obtain ⟨ha, hb⟩ := h2; subst ha; subst hb; exact absurd (by decide) hnot
    · obtain ⟨ha, hb⟩ := h3; subst ha; subst hb; exact absurd (by decide) hnot
    · obtain ⟨ha, hb⟩ := h4; subst ha; subst hb; exact absurd (by decide) hnot
    · obtain ⟨ha, hb⟩ := h5; subst ha; subst hb; exact absurd (by decide) hnot
    · obtain ⟨ha, hb⟩ := h6; subst ha; subst hb; exact absurd (by decide) hnot
    · obtain ⟨ha, hb⟩ := h6; subst ha; subst hb; exact absurd (by decide) hnot
    · obtain ⟨ha, hb⟩ := h7; subst ha; subst hb; exact absurd (by decide) hnot
    · rfl
  · intro hmem
    unfold route
    split_ifs with h1 h2 h3 h4 h5 h6 hs h7
    · exact ⟨_, rfl⟩
    · exact ⟨_, rfl⟩
    · exact ⟨_, rfl⟩
    · exact ⟨_, rfl⟩
    · exact ⟨_, rfl⟩
    · exact ⟨_, rfl⟩
    · exact ⟨_, rfl⟩
    · exact ⟨_, rfl⟩
    · simp only [routeTable, List.mem_cons, List.not_mem_nil, or_false,
        Prod.mk.injEq] at hmem
      rcases hmem with ⟨ha, hb⟩ | ⟨ha, hb⟩ | ⟨ha, hb⟩ | ⟨ha, hb⟩ |
        ⟨ha, hb⟩ | ⟨ha, hb⟩ | ⟨ha, hb⟩
      · exact absurd ⟨ha, hb⟩ h1
      · exact absurd ⟨ha, hb⟩ h2
      · exact absurd ⟨ha, hb⟩ h3
      · exact absurd ⟨ha, hb⟩ h4
      · exact absurd ⟨ha, hb⟩ h5
      · exact absurd ⟨ha, hb⟩ h6
      · exact absurd ⟨ha, hb⟩ h7

/-- Witness for C2: the pair (`keras`, absent) is not in the table and
raises the unsupported-pair error; the pair (`keras`, `tfjs_layers_model`)
is in the table and dispatches. -/
theorem C2_witness :
    route "keras" none "in.h5" none none none "serve" none false false true =
      .error ("Unsupported input_format - output_format pair: " ++
        "keras" ++ " - " ++ pyOptStr none) ∧
    ∃ c, route "keras" (some "tfjs_layers_model") "in.h5" none none none
      "serve" none false false true = .ok c := by
  constructor
  · exact (C2_router_total_and_exhaustive "keras" none "in.h5" none none none
      "serve" none false false true).1 (by decide)
  · exact (C2_router_total_and_exhaustive "keras" (some "tfjs_layers_model")
      "in.h5" none none none "serve" none false false true).2 (by decide)

/-- C6: Flag applicability is validated rule by rule: a set (truthy)
`--output_node_names` with an input format outside the three graph-style
source formats fails with an error naming the offending input format and
passes for each of the three; a set `--signature_name` with an input
format other than `tf_hub` fails. -/
theorem C6_flag_applicability (output_node_names signature_name : Option String)
    (input_format : String) :
    ((truthy output_node_names = true →
      input_format ≠ "tf_saved_model" → input_format ≠ "tf_session_bundle" →
      input_format ≠ "tf_frozen_model" →
      validate_output_node_names output_node_names input_format =
        .error ("The --output_node_names flag is applicable only to input formats " ++
          "\"tf_saved_model\", \"tf_session_bundle\" and \"tf_frozen_model\", " ++
          "but the current input format is \"" ++ input_format ++ "\".")) ∧
     (input_format = "tf_saved_model" ∨ input_format = "tf_session_bundle" ∨
      input_format = "tf_frozen_model" →
      validate_output_node_names output_node_names input_format = .ok ())) ∧
    (truthy signature_name = true → input_format ≠ "tf_hub" →
      validate_signature_name signature_name input_format =
        .error ("The --signature_name is applicable only to \"tf_hub\" input format, " ++
          "but the current input format is \"" ++ input_format ++ "\".")) := by
  refine ⟨⟨fun ht h1 h2 h3 => ?_, fun h => ?_⟩, fun ht h => ?_⟩
  · unfold validate_output_node_names
    rw [if_pos ⟨ht, h1, h2, h3⟩]
  · unfold validate_output_node_names
    rw [if_neg ?_]
    rintro ⟨_, hn1, hn2, hn3⟩
    rcases h with h | h | h
    · exact hn1 h
    · exact hn2 h
    · exact hn3 h
  · unfold validate_signature_name
    rw [if_pos ⟨ht, h⟩]

/-- Witness for C6 at concrete inputs: a set node-name list with `keras`
input fails, passes with `tf_saved_model`, and a set signature name with
`keras` input fails. -/
theorem C6_witness :
    validate_output_node_names (some "logits") "keras" =
      .error ("The --output_node_names flag is applicable only to input formats " ++
        "\"tf_saved_model\", \"tf_session_bundle\" and \"tf_frozen_model\", " ++
        "but the current input format is \"" ++ "keras" ++ "\".") ∧
    validate_output_node_names (some "logits") "tf_saved_model" = .ok () ∧
    validate_signature_name (some "serving_default") "keras" =
      .error ("The --signature_name is applicable only to \"tf_hub\" input format, " ++
        "but the current input format is \"" ++ "keras" ++ "\".") := by
  refine ⟨?_, ?_, ?_⟩
  · exact (C6_flag_applicability (some "logits") none "keras").1.1
      (by decide) (by decide) (by decide) (by decide)
  · exact (C6_flag_applicability (some "logits") none "tf_saved_model").1.2
      (Or.inl rfl)
  · exact (C6_flag_applicability none (some "serving_default") "keras").2
      (by decide) (by decide)

/-- C7: In the hub-module branch of the router, the signature name is
forwarded to `convert_tf_hub_module` exactly when `--signature_name` is
truthy; otherwise the no-signature call shape is used; both call shapes
forward `skip_op_check` and `strip_debug_ops`. -/
theorem C7_hub_signature_forwarding (input_path : String)
    (output_path output_node_names signature_name : Option String)
    (saved_model_tags : String) (quantization_dtype : Option String)
    (split skip strip : Bool) :
    (truthy signature_name = true →
      route "tf_hub" (some "tfjs_graph_model") input_path output_path
        output_node_names signature_name saved_model_tags quantization_dtype
        split skip strip =
      .ok (.convert_tf_hub_module_sig input_path output_path signature_name
        skip strip)) ∧
    (truthy signature_name = false →
      route "tf_hub" (some "tfjs_graph_model") input_path output_path
        output_node_names signature_name saved_model_tags quantization_dtype
        split skip strip =
      .ok (.convert_tf_hub_module input_path output_path skip strip)) := by
  constructor
  · intro ht
    unfold route
    rw [if_neg (by decide), if_neg (by decide), if_neg (by decide),
      if_neg (by decide), if_neg (by decide), if_pos ⟨rfl, rfl⟩, if_pos ht]
  · intro ht
    unfold route
    rw [if_neg (by decide), if_neg (by decide), if_neg (by decide),
      if_neg (by decide), if_neg (by decide), if_pos ⟨rfl, rfl⟩,
      if_neg (by rw [ht]; exact Bool.false_ne_true)]

/-- Witness for C7: a truthy signature name is forwarded, an absent one
selects the no-signature call shape. -/
theorem C7_witness :
    route "tf_hub" (some "tfjs_graph_model") "m" (some "out") none
      (some "serving_default") "serve" none false true false =
      .ok (.convert_tf_hub_module_sig "m" (some "out")
        (some "serving_default") true false) ∧
    route "tf_hub" (some "tfjs_graph_model") "m" (some "out") none none
      "serve" none false true false =
      .ok (.convert_tf_hub_module "m" (some "out") true false) := by
  constructor
  · exact (C7_hub_signature_forwarding "m" (some "out") none
      (some "serving_default") "serve" none false true false).1 (by decide)
  · exact (C7_hub_signature_forwarding "m" (some "out") none none
      "serve" none false true false).2 (by decide)

/-- C8: The layers-bundle-to-HDF5 dispatch validates before any delegated
work, in source order: a directory input path fails; otherwise a directory
output path fails; otherwise unparseable JSON content fails with a
descriptive error; the loader is invoked exactly when all three checks
pass, and a directory output path makes the call fail regardless of the
other checks. -/
theorem C8_tfjs_to_keras_validation (fs : Fs) (config_json_path h5_path : String) :
    (fs.isdir config_json_path = true →
      dispatch_tensorflowjs_to_keras_h5_conversion fs config_json_path h5_path =
        .error ("For input_type=tensorflowjs & output_format=keras, " ++
          "the input path should be a model.json " ++
          "file, but received a directory.")) ∧
    (fs.isdir h5_path = true →
      ∃ e, dispatch_tensorflowjs_to_keras_h5_conversion fs config_json_path
        h5_path = .error e) ∧
    (fs.isdir config_json_path = false → fs.isdir h5_path = false →
     fs.validJson config_json_path = false →
      dispatch_tensorflowjs_to_keras_h5_conversion fs config_json_path h5_path =
        .error ("For input_type=tensorflowjs & output_format=keras, " ++
          "the input path is expected to contain valid JSON content, " ++
          "but cannot read valid JSON content from " ++ config_json_path ++ ".")) ∧
    (fs.isdir config_json_path = false → fs.isdir h5_path = false →
     fs.validJson config_json_path = true →
      dispatch_tensorflowjs_to_keras_h5_conversion fs config_json_path h5_path =
        .ok (config_json_path, h5_path)) ∧
    (∀ r, dispatch_tensorflowjs_to_keras_h5_conversion fs config_json_path
        h5_path = .ok r →
      fs.isdir config_json_path = false ∧ fs.isdir h5_path = false ∧
      fs.validJson config_json_path = true ∧ r = (config_json_path, h5_path)) := by
  refine ⟨fun h1 => ?_, fun h2 => ?_, fun h1 h2 h3 => ?_, fun h1 h2 h3 => ?_,
    fun r h => ?_⟩
  · simp [dispatch_tensorflowjs_to_keras_h5_conversion, h1]
  · by_cases h1 : fs.isdir config_json_path = true
    · exact ⟨("For input_type=tensorflowjs & output_format=keras, " ++
        "the input path should be a model.json " ++
        "file, but received a directory."),
        by simp [dispatch_tensorflowjs_to_keras_h5_conversion, h1]⟩
    · rw [Bool.not_eq_true] at h1
      exact ⟨("For input_type=tensorflowjs & output_format=keras, " ++
        "the output path should be the path to an HDF5 file, " ++
        "but received an existing directory (" ++ h5_path ++ ")."),
        by simp [dispatch_tensorflowjs_to_keras_h5_conversion, h1, h2]⟩
  · simp [dispatch_tensorflowjs_to_keras_h5_conversion, h1, h2, h3]
  · simp [dispatch_tensorflowjs_to_keras_h5_conversion, h1, h2, h3]
  · unfold dispatch_tensorflowjs_to_keras_h5_conversion at h
    split_ifs at h with h1 h2 h3
    · rw [Bool.not_eq_true] at h1 h2
      have h3t : fs.validJson config_json_path = true := by
        cases hv : fs.validJson config_json_path
        · exact absurd (by rw [hv]; rfl) h3
        · rfl
      injection h with h4
      exact ⟨h1, h2, h3t, h4.symm⟩

/-- Witness for C8 at a concrete filesystem: with a directory as output
path the call fails; with a regular-file JSON input and a fresh output
path the loader is invoked. -/
theorem C8_witness :
    (∃ e, dispatch_tensorflowjs_to_keras_h5_conversion
      ⟨fun _ => true, fun p => p == "outdir", fun _ => true, fun _ => false,
        fun p => p == "model.json"⟩ "model.json" "outdir" = .error e) ∧
    dispatch_tensorflowjs_to_keras_h5_conversion
      ⟨fun _ => true, fun _ => false, fun _ => true, fun _ => false,
        fun p => p == "model.json"⟩ "model.json" "out.h5" =
      .ok ("model.json", "out.h5") := by
  constructor
  · exact (C8_tfjs_to_keras_validation
      ⟨fun _ => true, fun p => p == "outdir", fun _ => true, fun _ => false,
        fun p => p == "model.json"⟩ "model.json" "outdir").2.1 (by decide)
  · exact (C8_tfjs_to_keras_validation
      ⟨fun _ => true, fun _ => false, fun _ => true, fun _ => false,
        fun p => p == "model.json"⟩ "model.json" "out.h5").2.2.2.1
      (by decide) (by decide) (by decide)

/-- C10: With a falsy `output_dir` (absent or empty) and an existing
non-directory HDF5 input, the dispatch still performs the conversion and
returns the `(model_json, groups)` pair — `model_json` absent for a
weights-only file, present for a combined file — but neither
`write_artifacts` nor `makedirs` is called, and no output-path check can
fail the call. -/
theorem C10_no_output_dir_skips_writes (fs : Fs) (h5_path : String)
    (output_dir : Option String) (quantization_dtype : Option String)
    (split : Bool) (hex : fs.path_exists h5_path = true)
    (hdir : fs.isdir h5_path = false) (hout : truthy output_dir = false) :
    (fs.hasLayerNames h5_path = true →
      dispatch_keras_h5_to_tensorflowjs_conversion fs h5_path output_dir
        quantization_dtype split =
      .ok (none, [H5Action.h5_weights_to_tfjs_format split])) ∧
    (fs.hasLayerNames h5_path = false →
      dispatch_keras_h5_to_tensorflowjs_conversion fs h5_path output_dir
        quantization_dtype split =
      .ok (some (), [H5Action.h5_merged_saved_model_to_tfjs_format split])) ∧
    (∀ mj acts, dispatch_keras_h5_to_tensorflowjs_conversion fs h5_path
        output_dir quantization_dtype split = .ok (mj, acts) →
      (∀ d q, H5Action.write_artifacts d q ∉ acts) ∧
      (∀ d, H5Action.makedirs d ∉ acts)) := by
  refine ⟨fun hL => ?_, fun hL => ?_, fun mj acts h => ?_⟩
  · simp [dispatch_keras_h5_to_tensorflowjs_conversion, hex, hdir, hout, hL]
  · simp [dispatch_keras_h5_to_tensorflowjs_conversion, hex, hdir, hout, hL]
  · cases hL : fs.hasLayerNames h5_path
    · rw [(by simp [dispatch_keras_h5_to_tensorflowjs_conversion, hex, hdir,
        hout, hL] :
        dispatch_keras_h5_to_tensorflowjs_conversion fs h5_path output_dir
          quantization_dtype split =
        .ok (some (), [H5Action.h5_merged_saved_model_to_tfjs_format split]))]
        at h
      injection h with h1
      injection h1 with h2 h3
      subst h3
      constructor
      · intro d q; simp
      · intro d; simp
    · rw [(by simp [dispatch_keras_h5_to_tensorflowjs_conversion, hex, hdir,
        hout, hL] :
        dispatch_keras_h5_to_tensorflowjs_conversion fs h5_path output_dir
          quantization_dtype split =
        .ok (none, [H5Action.h5_weights_to_tfjs_format split]))] at h
      injection h with h1
      injection h1 with h2 h3
      subst h3
      constructor
      · intro d q; simp
      · intro d; simp

/-- Witness for C10 at a concrete filesystem: an existing combined HDF5
file with no output directory converts without writing. -/
theorem C10_witness :
    dispatch_keras_h5_to_tensorflowjs_conversion
      ⟨fun p => p == "m.h5", fun _ => false, fun p => p == "m.h5",
        fun _ => false, fun _ => false⟩ "m.h5" none none false =
      .ok (some (), [H5Action.h5_merged_saved_model_to_tfjs_format false]) := by
  exact (C10_no_output_dir_skips_writes
    ⟨fun p => p == "m.h5", fun _ => false, fun p => p == "m.h5",
      fun _ => false, fun _ => false⟩ "m.h5" none none false
    (by decide) (by decide) (by decide)).2.1 (by decide)

/-- C1 counterexample: with a filesystem in which the requested output
path already exists as a regular file, the recursive HDF5-to-bundle call
inside the SavedModel branch raises, and afterwards the temporary HDF5
file still exists — the branch has no scoped cleanup, so removal is
skipped on the failure path. -/
theorem C1_counterexample :
    (dispatch_keras_saved_model_to_tensorflowjs_conversion
      ⟨fun p => p == "out", fun _ => false, fun p => p == "out",
        fun _ => false, fun _ => false⟩ "tmp.h5" (some "out") none false).1 =
      .error ("Output path \"" ++ "out" ++ "\" already exists as a file") ∧
    ((dispatch_keras_saved_model_to_tensorflowjs_conversion
      ⟨fun p => p == "out", fun _ => false, fun p => p == "out",
        fun _ => false, fun _ => false⟩ "tmp.h5" (some "out") none
        false).2).path_exists "tmp.h5" = true := by
  exact ⟨rfl, rfl⟩

/-- C1 amended: the temporary HDF5 file is removed only when the recursive
HDF5-to-bundle conversion returns normally; when the recursive call
raises, the original failure is the one propagated to the caller, but the
temporary file is not removed and still exists afterward. -/
theorem C1_amended_temp_file_cleanup (fs : Fs) (temp_h5_path : String)
    (output_dir : Option String) (quantization_dtype : Option String)
    (split : Bool) :
    (∀ acts, (dispatch_keras_saved_model_to_tensorflowjs_conversion fs
        temp_h5_path output_dir quantization_dtype split).1 = .ok acts →
      ((dispatch_keras_saved_model_to_tensorflowjs_conversion fs temp_h5_path
        output_dir quantization_dtype split).2).path_exists temp_h5_path =
        false) ∧
    (∀ e, dispatch_keras_h5_to_tensorflowjs_conversion (fs.addFile temp_h5_path)
        temp_h5_path output_dir quantization_dtype split = .error e →
      dispatch_keras_saved_model_to_tensorflowjs_conversion fs temp_h5_path
        output_dir quantization_dtype split =
        (.error e, fs.addFile temp_h5_path) ∧
      (fs.addFile temp_h5_path).path_exists temp_h5_path = true) := by
  constructor
  · intro acts h
    unfold dispatch_keras_saved_model_to_tensorflowjs_conversion at h ⊢
    simp only [Fs.addFile_isfile_self, Bool.not_true, Bool.false_eq_true,
      if_false] at h ⊢
    cases hrec : dispatch_keras_h5_to_tensorflowjs_conversion
        (fs.addFile temp_h5_path) temp_h5_path output_dir quantization_dtype
        split with
    | error e =>
        rw [hrec] at h
        exact Except.noConfusion h
    | ok r =>
        exact Fs.removeFile_path_exists_self (fs.addFile temp_h5_path)
          temp_h5_path
  · intro e he
    unfold dispatch_keras_saved_model_to_tensorflowjs_conversion
    simp only [Fs.addFile_isfile_self, Bool.not_true, Bool.false_eq_true,
      if_false]
    rw [he]
    exact ⟨rfl, Fs.addFile_path_exists_self fs temp_h5_path⟩

/-- Witness for C1's amended claim: on the failing filesystem of the
counterexample the original error propagates with the temporary file
still present, and on a clean filesystem with no output directory the
temporary file is gone after success. -/
theorem C1_amended_witness :
    (dispatch_keras_saved_model_to_tensorflowjs_conversion
      ⟨fun p => p == "out", fun _ => false, fun p => p == "out",
        fun _ => false, fun _ => false⟩ "tmp.h5" (some "out") none false =
      (.error ("Output path \"" ++ "out" ++ "\" already exists as a file"),
        Fs.addFile ⟨fun p => p == "out", fun _ => false, fun p => p == "out",
          fun _ => false, fun _ => false⟩ "tmp.h5") ∧
      (Fs.addFile ⟨fun p => p == "out", fun _ => false, fun p => p == "out",
        fun _ => false, fun _ => false⟩ "tmp.h5").path_exists "tmp.h5" =
        true) ∧
    ((dispatch_keras_saved_model_to_tensorflowjs_conversion
      ⟨fun _ => false, fun _ => false, fun _ => false, fun _ => false,
        fun _ => false⟩ "tmp.h5" none none false).2).path_exists "tmp.h5" =
      false := by
  constructor
  · exact (C1_amended_temp_file_cleanup
      ⟨fun p => p == "out", fun _ => false, fun p => p == "out",
        fun _ => false, fun _ => false⟩ "tmp.h5" (some "out") none false).2
      ("Output path \"" ++ "out" ++ "\" already exists as a file") rfl
  · exact (C1_amended_temp_file_cleanup
      ⟨fun _ => false, fun _ => false, fun _ => false, fun _ => false,
        fun _ => false⟩ "tmp.h5" none none false).1
      [H5Action.h5_merged_saved_model_to_tfjs_format false] rfl

end Converter
